import Mathlib

/-!
Shallow embedding of the contact-merge workflow of
`src/app/contact/factories/contactEditor.js`: the result summarizer
(`summarizeMergeResults`), the per-group reconciler (`updateAndRemove`),
the progress announcer (`mergeProgressAnnouncer`, embedded as
`progressEmissionsFrom` / `contactUpdatedEmissions`) and the coordinator
(`merge`), together with theorems settling the specification claims.

Store calls (`Contact.update`, `Contact.remove`) and the final
`eventManager.call()` are external collaborators; they are embedded as
explicit behaviour parameters (resolve with a value, or reject with an
error), so every run of the embedded code is a deterministic function of
those behaviours and of the order in which the concurrent group promises
happen to resolve (the `arrival` parameter).
-/

/-- Opaque contact identifier. -/
abbrev ContactID := String

/-- Contact record: an identifier plus opaque payload (name, emails, card
data). The reconciliation core never inspects the payload. -/
structure ContactRecord where
  ID : ContactID
  payload : String
deriving DecidableEq, Repr

/-- Per-identifier error object reported by `Contact.remove`; the code reads
its `Error` field (`errors.map(({ Error }) => Error)`). -/
structure RemoveErr where
  ID : ContactID
  Error : String
deriving DecidableEq, Repr

/-- The result object of one `updateAndRemove` call:
`{ total, updated, removed, errors }`. A field the code leaves out of the
object literal (for example `removed` in the catch branch, or `updated` set
to `undefined`) is `none`. -/
structure GroupOutcome where
  total : Nat
  updated : Option ContactRecord
  removed : Option (List ContactID)
  errors : Option (List String)
deriving DecidableEq, Repr

/-- The aggregate built by `summarizeMergeResults`:
`{ updated: [], removed: [], errors: [], total: 0 }` grown by the fold. -/
structure AggregateResult where
  updated : List ContactRecord
  removed : List ContactID
  errors : List String
  total : Nat
deriving DecidableEq, Repr

/-- One step of the `reduce` in `summarizeMergeResults`. Each `if (field)`
tests JavaScript truthiness: an absent field (`undefined`) is falsy, a
present array or object is truthy even when empty, and the number
`result.total` is truthy exactly when it is nonzero. -/
def summarizeStep (agg : AggregateResult) (result : GroupOutcome) : AggregateResult :=
  let agg := match result.updated with
    | some u => { agg with updated := agg.updated ++ [u] }
    | none => agg
  let agg := match result.removed with
    | some r => { agg with removed := agg.removed ++ r }
    | none => agg
  let agg := match result.errors with
    | some e => { agg with errors := agg.errors ++ e }
    | none => agg
  if result.total ≠ 0 then { agg with total := agg.total + result.total } else agg

/-- `summarizeMergeResults(results)`: left fold of `summarizeStep` starting
from the empty aggregate. -/
def summarizeMergeResults (results : List GroupOutcome) : AggregateResult :=
  results.foldl summarizeStep { updated := [], removed := [], errors := [], total := 0 }

/-- A thrown JavaScript error: either the distinguished `ContactUpdateError`
(imported from `helpers/errors`) or any other error; both carry a `message`. -/
inductive JsError where
  | contactUpdateError (message : String)
  | otherError (message : String)
deriving DecidableEq, Repr

/-- The `message` property of a thrown error. -/
def JsError.message : JsError → String
  | .contactUpdateError m => m
  | .otherError m => m

/-- The `error instanceof ContactUpdateError` test. -/
def JsError.isContactUpdateError : JsError → Bool
  | .contactUpdateError _ => true
  | .otherError _ => false

/-- Behaviour of one `Contact.update` call: resolve (the resolution value is
never read by `updateAndRemove`), or reject with an error. -/
inductive UpdateBehavior where
  | resolves
  | rejects (e : JsError)
deriving DecidableEq, Repr

/-- Behaviour of one `Contact.remove` call: resolve with
`{ removed, errors }` (the code destructures both fields with `[]`
defaults), or reject with an error. -/
inductive RemoveBehavior where
  | resolves (removed : List ContactID) (errors : List RemoveErr)
  | rejects (e : JsError)
deriving DecidableEq, Repr

/-- Argument object of `updateAndRemove`: `{ update, remove = [] }` — the
contact to update and the identifiers to remove. -/
structure MergeArgs where
  update : ContactRecord
  remove : List ContactID
deriving DecidableEq, Repr

/-- The `try` body of `updateAndRemove`: await `Contact.update(update)`
(value unused), then await `Contact.remove({ IDs: remove })` and build the
success outcome; a rejection of either awaited call escapes as the thrown
error. -/
def tryUpdateAndRemove (ub : UpdateBehavior) (rb : RemoveBehavior)
    (args : MergeArgs) (total : Nat) : Except JsError GroupOutcome :=
  match ub with
  | .rejects e => .error e
  | .resolves =>
    match rb with
    | .rejects e => .error e
    | .resolves removed errors =>
      .ok { total := total
            updated := some args.update
            removed := some removed
            errors := some (errors.map RemoveErr.Error) }

/-- Trace of one `updateAndRemove` call: the settlement of the promise the
async function returns, and whether `Contact.remove` was reached. -/
structure ReconcileTrace where
  settled : Except JsError GroupOutcome
  removeInvoked : Bool
deriving Repr

/-- `updateAndRemove({ update, remove = [] })`: computes
`total = 1 + remove.length` before the `try`, runs the `try` body, and the
catch-all handler turns any thrown error into a normally returned outcome —
`updated` is dropped exactly when the error is a `ContactUpdateError`,
`removed` is left out of the returned object, and `errors` is the single
`error.message`. `Contact.remove` is reached only after `Contact.update`
resolved. -/
def updateAndRemove (ub : UpdateBehavior) (rb : RemoveBehavior)
    (args : MergeArgs) : ReconcileTrace :=
  let total := 1 + args.remove.length
  { settled :=
      match tryUpdateAndRemove ub rb args total with
      | .ok o => .ok o
      | .error e =>
        .ok { total := total
              updated := if e.isContactUpdateError then none else some args.update
              removed := none
              errors := some [e.message] }
    removeInvoked := match ub with | .resolves => true | .rejects _ => false }

/-- The outcome `updateAndRemove` resolves with. That it always resolves —
never rejects — is the content of `updateAndRemove_never_rejects`. -/
def reconOutcome (ub : UpdateBehavior) (rb : RemoveBehavior)
    (args : MergeArgs) : GroupOutcome :=
  match (updateAndRemove ub rb args).settled with
  | .ok o => o
  | .error _ => { total := 0, updated := none, removed := none, errors := none }

/-- JavaScript number arithmetic restricted to what `mergeProgressAnnouncer`
can produce from natural inputs: a natural number, `Infinity` (from division
of a positive number by zero) or `NaN` (from `0/0`). -/
inductive JsNum where
  | num (n : Nat)
  | inf
  | nan
deriving DecidableEq, Repr

/-- JavaScript `+` on the numbers above: `NaN` is absorbing, then
`Infinity` (no negative operand ever occurs here). -/
def JsNum.add : JsNum → JsNum → JsNum
  | .nan, _ => .nan
  | _, .nan => .nan
  | .inf, _ => .inf
  | _, .inf => .inf
  | .num a, .num b => .num (a + b)

/-- `Math.floor(a / t)` for natural `a`, `t` under JavaScript division:
`t = 0` gives `NaN` when `a = 0` and `Infinity` otherwise; otherwise the
floor of the exact quotient, which for naturals is truncating division. -/
def jsFloorDiv (a t : Nat) : JsNum :=
  if t = 0 then (if a = 0 then JsNum.nan else JsNum.inf) else JsNum.num (a / t)

/-- Payload of a `contactUpdated` emission from `mergeProgressAnnouncer`.
Line 121 writes `data: { contact: update }`; in that scope `update` resolves
lexically to the factory's `update` function (the contact-edit helper
defined lower in the same factory), not to any record of the resolved
group — so the payload is a reference to that function. -/
inductive ContactPayload where
  | functionRef
  | record (c : ContactRecord)
deriving DecidableEq, Repr

/-- The `progressBar` emissions of `mergeProgressAnnouncer`, given the
resolved group outcomes in their arrival order: starting from `progress`,
each resolution adds `Math.floor(result.total * 100 / total)` to the shared
`progress` variable and emits the running value. -/
def progressEmissionsFrom (total : Nat) (progress : JsNum) :
    List GroupOutcome → List JsNum
  | [] => []
  | r :: rs =>
    let p := progress.add (jsFloorDiv (r.total * 100) total)
    p :: progressEmissionsFrom total p rs

/-- The `contactUpdated` emissions of `mergeProgressAnnouncer`: one per
resolved group, each carrying the factory's `update` function. -/
def contactUpdatedEmissions (results : List GroupOutcome) : List ContactPayload :=
  results.map (fun _ => ContactPayload.functionRef)

/-- The last `progressBar` value emitted once all groups have resolved
(`JsNum.num 0`, the initial value of `progress`, if nothing was emitted). -/
def finalProgress (total : Nat) (results : List GroupOutcome) : JsNum :=
  (progressEmissionsFrom total (JsNum.num 0) results).getLastD (JsNum.num 0)

/-- The sum of the per-group progress contributions
`floor(result.total * 100 / total)` under ordinary (nonzero-divisor)
arithmetic. -/
def sumContribs (total : Nat) (results : List GroupOutcome) : Nat :=
  (results.map (fun r => r.total * 100 / total)).sum

/-- Resolution value of a promise as `merge` observes it. The final
`eventManager.call()` is specified as `Promise<void>`, i.e. it resolves
with `undefined`; the `aggregate` constructor lets the type also express
the resolution value the specification claims. -/
inductive JsValue where
  | undef
  | aggregate (a : AggregateResult)
deriving DecidableEq, Repr

/-- Behaviour of the final `eventManager.call()`. -/
inductive SyncBehavior where
  | resolves (v : JsValue)
  | rejects (msg : String)
deriving DecidableEq, Repr

/-- Settlement of the promise returned by `merge`. -/
inductive Settlement where
  | resolved (v : JsValue)
  | rejected (msg : String)
deriving DecidableEq, Repr

/-- `Promise.all`: resolves with the values in input order, rejects with a
rejection if any input rejects. -/
def collectAll : List (Except JsError GroupOutcome) → Except JsError (List GroupOutcome)
  | [] => .ok []
  | .error e :: _ => .error e
  | .ok o :: rest =>
    match collectAll rest with
    | .error e => .error e
    | .ok os => .ok (o :: os)

/-- Observable notifications of one `merge` run: the loader-modal
activation, the `progressBar` and `contactUpdated` emissions of the
announcer, the end-of-run `contactsUpdated` emission, and the
`contactsMerged` emission with its aggregate payload. -/
structure MergeEvents where
  loaderActivated : Bool
  progress : List JsNum
  contactUpdated : List ContactPayload
  contactsUpdatedEmitted : Bool
  contactsMerged : Option AggregateResult
deriving DecidableEq, Repr

/-- The `updateAndRemove` calls of one merge request
(`groups.map((group) => updateAndRemove(contacts[group]))`), paired
positionally with the store behaviours for each call. -/
def mergeActions (behs : List (UpdateBehavior × RemoveBehavior))
    (contacts : List (String × MergeArgs)) : List ReconcileTrace :=
  (contacts.zip behs).map (fun p => updateAndRemove p.2.1 p.2.2 p.1.2)

/-- The outcomes those calls resolve with, in group order (the order
`Promise.all` delivers them in, independent of arrival order). -/
def mergeOutcomes (behs : List (UpdateBehavior × RemoveBehavior))
    (contacts : List (String × MergeArgs)) : List GroupOutcome :=
  (contacts.zip behs).map (fun p => reconOutcome p.2.1 p.2.2 p.1.2)

/-- `total` as `merge` computes it:
`groups.reduce((sum, group) => sum + contacts[group].remove.length + 1, 0)`. -/
def mergeTotal (contacts : List (String × MergeArgs)) : Nat :=
  contacts.foldl (fun sum p => sum + p.2.remove.length + 1) 0

/-- `merge(contacts)`: activates the loader modal, launches one
`updateAndRemove` per group, computes the grand total, lets
`mergeProgressAnnouncer` emit as the group promises resolve (in `arrival`
order), waits for all of them via `Promise.all`, folds the outcomes through
`summarizeMergeResults`, emits `contactsUpdated` and `contactsMerged` with
the aggregate, and finally returns `eventManager.call()` — so the returned
promise settles exactly as that final call settles. -/
def merge (sync : SyncBehavior) (behs : List (UpdateBehavior × RemoveBehavior))
    (arrival : List GroupOutcome) (contacts : List (String × MergeArgs)) :
    MergeEvents × Settlement :=
  let actions := mergeActions behs contacts
  let total := mergeTotal contacts
  let progress := progressEmissionsFrom total (JsNum.num 0) arrival
  let contactUpd := contactUpdatedEmissions arrival
  match collectAll (actions.map ReconcileTrace.settled) with
  | .error e =>
    ({ loaderActivated := true, progress := progress, contactUpdated := contactUpd,
       contactsUpdatedEmitted := false, contactsMerged := none },
     Settlement.rejected e.message)
  | .ok outcomes =>
    let summarized := summarizeMergeResults outcomes
    match sync with
    | .resolves v =>
      ({ loaderActivated := true, progress := progress, contactUpdated := contactUpd,
         contactsUpdatedEmitted := true, contactsMerged := some summarized },
       Settlement.resolved v)
    | .rejects m =>
      ({ loaderActivated := true, progress := progress, contactUpdated := contactUpd,
         contactsUpdatedEmitted := true, contactsMerged := some summarized },
       Settlement.rejected m)

/-- A sample group outcome whose only populated field is `total`, used by
concrete evaluations below. -/
def outc (t : Nat) : GroupOutcome :=
  { total := t, updated := none, removed := none, errors := none }

/-- A sample canonical contact record. -/
def rC1 : ContactRecord := { ID := "C1", payload := "" }

/-- Bridge lemma: the settlement computed by `updateAndRemove` is always a
resolution, with value `reconOutcome`. -/
theorem settled_eq_ok (ub : UpdateBehavior) (rb : RemoveBehavior) (args : MergeArgs) :
    (updateAndRemove ub rb args).settled = Except.ok (reconOutcome ub rb args) := by
  unfold reconOutcome updateAndRemove
  cases h : tryUpdateAndRemove ub rb args (1 + args.remove.length) <;> simp [h]

/-- `Promise.all` over the settlements of a list of `updateAndRemove` calls
resolves with the corresponding outcomes. -/
theorem collectAll_updateAndRemove
    (l : List ((String × MergeArgs) × (UpdateBehavior × RemoveBehavior))) :
    collectAll ((l.map (fun p => updateAndRemove p.2.1 p.2.2 p.1.2)).map
        ReconcileTrace.settled) =
      Except.ok (l.map (fun p => reconOutcome p.2.1 p.2.2 p.1.2)) := by
  induction l with
  | nil => rfl
  | cons p l ih => simp only [List.map_cons, settled_eq_ok, collectAll, ih]

/-- The `Promise.all` in `merge` always resolves, with the group outcomes. -/
theorem collectAll_mergeActions (behs : List (UpdateBehavior × RemoveBehavior))
    (contacts : List (String × MergeArgs)) :
    collectAll ((mergeActions behs contacts).map ReconcileTrace.settled) =
      Except.ok (mergeOutcomes behs contacts) := by
  unfold mergeActions mergeOutcomes
  exact collectAll_updateAndRemove (contacts.zip behs)

/-- Closed form of the fold in `summarizeMergeResults`, from an arbitrary
accumulator. -/
theorem foldl_summarizeStep (rs : List GroupOutcome) (agg : AggregateResult) :
    rs.foldl summarizeStep agg =
      { updated := agg.updated ++ rs.filterMap GroupOutcome.updated
        removed := agg.removed ++ (rs.map (fun r => r.removed.getD [])).flatten
        errors := agg.errors ++ (rs.map (fun r => r.errors.getD [])).flatten
        total := agg.total + (rs.map GroupOutcome.total).sum } := by
  induction rs generalizing agg with
  | nil => simp
  | cons r rs ih =>
    rw [List.foldl_cons, ih]
    unfold summarizeStep
    rcases r with ⟨t, u, rm, er⟩
    cases u <;> cases rm <;> cases er <;> by_cases ht : t = 0 <;>
      simp_all [List.append_assoc, Nat.add_comm, Nat.add_assoc, Nat.add_left_comm]

/-- Closed form of `summarizeMergeResults`: the filtered updated records,
the concatenated removed identifiers and error messages, and the summed
totals. -/
theorem summarizeMergeResults_eq (rs : List GroupOutcome) :
    summarizeMergeResults rs =
      { updated := rs.filterMap GroupOutcome.updated
        removed := (rs.map (fun r => r.removed.getD [])).flatten
        errors := (rs.map (fun r => r.errors.getD [])).flatten
        total := (rs.map GroupOutcome.total).sum } := by
  unfold summarizeMergeResults
  rw [foldl_summarizeStep]
  simp

/-- With a positive grand total the announcer's arithmetic stays finite:
the last emission starting from `p` is `p` plus the sum of the per-group
contributions. -/
theorem progressEmissionsFrom_getLastD (total : Nat) (hT : 0 < total)
    (rs : List GroupOutcome) (p : Nat) :
    (progressEmissionsFrom total (JsNum.num p) rs).getLastD (JsNum.num p) =
      JsNum.num (p + sumContribs total rs) := by
  induction rs generalizing p with
  | nil => simp [progressEmissionsFrom, sumContribs]
  | cons r rs ih =>
    have hadd : (JsNum.num p).add (jsFloorDiv (r.total * 100) total) =
        JsNum.num (p + r.total * 100 / total) := by
      simp [JsNum.add, jsFloorDiv, Nat.pos_iff_ne_zero.mp hT]
    simp only [progressEmissionsFrom, hadd, List.getLastD_cons, ih,
      sumContribs, List.map_cons, List.sum_cons, Nat.add_assoc]

/-- Division by a positive divisor, summed over a list, is at most the
division of the sum. -/
theorem list_sum_div_le (T : Nat) (hT : 0 < T) (l : List Nat) :
    (l.map (fun a => a / T)).sum ≤ l.sum / T := by
  induction l with
  | nil => simp
  | cons a l ih =>
    simp only [List.map_cons, List.sum_cons]
    refine (Nat.add_le_add_left ih _).trans ?_
    rw [Nat.le_div_iff_mul_le hT, Nat.add_mul]
    exact Nat.add_le_add (Nat.div_mul_le_self a T) (Nat.div_mul_le_self l.sum T)

/-- Each truncating division loses strictly less than one whole unit of the
divisor; summed over a list this bounds the lost amount by the length. -/
theorem list_sum_mul_add_length_le (T : Nat) (hT : 0 < T) (l : List Nat) :
    l.sum * 100 + l.length ≤ T * ((l.map (fun a => a * 100 / T)).sum + l.length) := by
  induction l with
  | nil => simp
  | cons a l ih =>
    have key : a * 100 < T * (a * 100 / T + 1) := by
      conv_lhs => rw [← Nat.div_add_mod (a * 100) T]
      rw [Nat.mul_succ]
      exact Nat.add_lt_add_left (Nat.mod_lt _ hT) _
    simp only [List.map_cons, List.sum_cons, List.length_cons]
    calc (a + l.sum) * 100 + (l.length + 1)
        = (a * 100 + 1) + (l.sum * 100 + l.length) := by ring
      _ ≤ T * (a * 100 / T + 1) + T * ((l.map (fun a => a * 100 / T)).sum + l.length) :=
          Nat.add_le_add (Nat.succ_le_of_lt key) ih
      _ = T * (a * 100 / T + (l.map (fun a => a * 100 / T)).sum + (l.length + 1)) := by
          ring

/-- Multiplying each list element by 100 multiplies the sum by 100. -/
theorem list_sum_map_mul_100 (l : List Nat) :
    (l.map (fun a => a * 100)).sum = l.sum * 100 := by
  induction l with
  | nil => simp
  | cons a l ih => simp [ih, Nat.add_mul]

/-- `sumContribs` written as a sum over the list of group totals. -/
theorem sumContribs_eq_map (T : Nat) (rs : List GroupOutcome) :
    sumContribs T rs = ((rs.map GroupOutcome.total).map (fun a => a * 100 / T)).sum := by
  simp [sumContribs, List.map_map, Function.comp_def]

/-- The summed contributions never exceed the exact percentage of the
summed totals. -/
theorem sumContribs_le_sum_div (T : Nat) (hT : 0 < T) (rs : List GroupOutcome) :
    sumContribs T rs ≤ (rs.map GroupOutcome.total).sum * 100 / T := by
  rw [sumContribs_eq_map]
  have h2 : (rs.map GroupOutcome.total).map (fun a => a * 100 / T) =
      ((rs.map GroupOutcome.total).map (fun a => a * 100)).map (fun a => a / T) := by
    simp [List.map_map, Function.comp_def]
  rw [h2, ← list_sum_map_mul_100]
  exact list_sum_div_le T hT _

/-- When the grand total is the sum of the group totals, the summed
contributions are at most 100. -/
theorem sumContribs_le_100 (rs : List GroupOutcome)
    (hT : 0 < (rs.map GroupOutcome.total).sum) :
    sumContribs ((rs.map GroupOutcome.total).sum) rs ≤ 100 := by
  have h := sumContribs_le_sum_div ((rs.map GroupOutcome.total).sum) hT rs
  rwa [Nat.mul_div_cancel_left 100 hT] at h

/-- When the grand total is the sum of the group totals, the summed
contributions exceed 100 minus the number of groups. -/
theorem sumContribs_lower (rs : List GroupOutcome)
    (hT : 0 < (rs.map GroupOutcome.total).sum) :
    100 < sumContribs ((rs.map GroupOutcome.total).sum) rs + rs.length := by
  have hne : rs ≠ [] := by rintro rfl; simp at hT
  have hlen : 0 < rs.length := List.length_pos.mpr hne
  have h := list_sum_mul_add_length_le ((rs.map GroupOutcome.total).sum) hT
    (rs.map GroupOutcome.total)
  rw [List.length_map, ← sumContribs_eq_map] at h
  have h2 : (rs.map GroupOutcome.total).sum * 100 <
      (rs.map GroupOutcome.total).sum *
        (sumContribs ((rs.map GroupOutcome.total).sum) rs + rs.length) :=
    Nat.lt_of_lt_of_le (Nat.lt_add_of_pos_right hlen) h
  exact Nat.lt_of_mul_lt_mul_left h2

/-- `jsFloorDiv` with divisor zero is never a finite number. -/
theorem jsFloorDiv_zero_nonfinite (a : Nat) :
    jsFloorDiv a 0 = JsNum.inf ∨ jsFloorDiv a 0 = JsNum.nan := by
  by_cases h : a = 0 <;> simp [jsFloorDiv, h]

/-- Adding a non-finite number yields a non-finite number. -/
theorem JsNum.add_nonfinite (a b : JsNum) (hb : b = JsNum.inf ∨ b = JsNum.nan) :
    a.add b = JsNum.inf ∨ a.add b = JsNum.nan := by
  rcases hb with rfl | rfl <;> cases a <;> simp [JsNum.add]

/-- With a grand total of zero, every announcer emission is non-finite,
from any starting accumulator. -/
theorem progressEmissions_zero_nonfinite (rs : List GroupOutcome) (q p : JsNum)
    (hp : p ∈ progressEmissionsFrom 0 q rs) :
    p = JsNum.inf ∨ p = JsNum.nan := by
  induction rs generalizing q with
  | nil => simp [progressEmissionsFrom] at hp
  | cons r rs ih =>
    simp only [progressEmissionsFrom, List.mem_cons] at hp
    rcases hp with rfl | hp
    · exact JsNum.add_nonfinite q _ (jsFloorDiv_zero_nonfinite (r.total * 100))
    · exact ih _ hp

/-- A sample outcome with an updated record labelled A. -/
def oA : GroupOutcome :=
  { total := 1, updated := some { ID := "A", payload := "" }, removed := none, errors := none }

/-- A sample outcome with an updated record labelled B. -/
def oB : GroupOutcome :=
  { total := 1, updated := some { ID := "B", payload := "" }, removed := none, errors := none }

/-- Claim C1, corrected: for every merge request in which every group
operation settles and the final synchronization call resolves, the promise
returned by `merge` resolves with the resolution value of that final
`eventManager.call()` — not with the aggregate — while the `AggregateResult`
produced by folding all group outcomes through `summarizeMergeResults` is
delivered in the `contactsMerged` ("merge finished") notification. -/
theorem merge_settles_with_sync (v : JsValue)
    (behs : List (UpdateBehavior × RemoveBehavior)) (arrival : List GroupOutcome)
    (contacts : List (String × MergeArgs)) :
    (merge (SyncBehavior.resolves v) behs arrival contacts).2 = Settlement.resolved v ∧
    (merge (SyncBehavior.resolves v) behs arrival contacts).1.contactsMerged =
      some (summarizeMergeResults (mergeOutcomes behs contacts)) := by
  simp [merge, collectAll_mergeActions]

/-- Claim C1 fails as stated: with one group that merges successfully and a
final synchronization resolving with `undefined` (its contract is
`Promise<void>`), `merge` resolves with `undefined`, which is not the
(nonempty) aggregate result of the run. -/
theorem merge_resolution_not_aggregate :
    (merge (SyncBehavior.resolves JsValue.undef)
        [(UpdateBehavior.resolves, RemoveBehavior.resolves ["D1"] [])]
        [{ total := 2, updated := some rC1, removed := some ["D1"], errors := some [] }]
        [("g0", { update := rC1, remove := ["D1"] })]).2 =
      Settlement.resolved JsValue.undef ∧
    (merge (SyncBehavior.resolves JsValue.undef)
        [(UpdateBehavior.resolves, RemoveBehavior.resolves ["D1"] [])]
        [{ total := 2, updated := some rC1, removed := some ["D1"], errors := some [] }]
        [("g0", { update := rC1, remove := ["D1"] })]).2 ≠
      Settlement.resolved (JsValue.aggregate (summarizeMergeResults
        (mergeOutcomes [(UpdateBehavior.resolves, RemoveBehavior.resolves ["D1"] [])]
          [("g0", { update := rC1, remove := ["D1"] })]))) := by
  decide

/-- Claim C2, corrected: once all groups have resolved, the final announced
progress is the sum of the per-group contributions
`floor(groupTotal * 100 / totalUnits)`; that sum is at most 100 and exceeds
`100 - (number of groups)`, and it is invariant under the arrival order of
the groups — but it can fall short of 100 (see
`mergeProgress_final_counterexample`). -/
theorem mergeProgress_final (results results' : List GroupOutcome)
    (hT : 0 < (results.map GroupOutcome.total).sum)
    (hperm : List.Perm results' results) :
    finalProgress ((results.map GroupOutcome.total).sum) results =
      JsNum.num (sumContribs ((results.map GroupOutcome.total).sum) results) ∧
    sumContribs ((results.map GroupOutcome.total).sum) results ≤ 100 ∧
    100 < sumContribs ((results.map GroupOutcome.total).sum) results + results.length ∧
    finalProgress ((results.map GroupOutcome.total).sum) results' =
      finalProgress ((results.map GroupOutcome.total).sum) results := by
  refine ⟨?_, sumContribs_le_100 results hT, sumContribs_lower results hT, ?_⟩
  · unfold finalProgress
    simpa using progressEmissionsFrom_getLastD _ hT results 0
  · unfold finalProgress
    rw [progressEmissionsFrom_getLastD _ hT results 0,
      progressEmissionsFrom_getLastD _ hT results' 0]
    have : sumContribs ((results.map GroupOutcome.total).sum) results' =
        sumContribs ((results.map GroupOutcome.total).sum) results := by
      unfold sumContribs
      exact (hperm.map _).sum_eq
    rw [this]

/-- Witness for `mergeProgress_final`: the specification's own scenario —
two groups with totals 3 and 2, grand total 5, contributions 60 and 40 —
where the final progress does reach 100 in either arrival order. -/
theorem mergeProgress_final_witness :
    0 < (([outc 3, outc 2] : List GroupOutcome).map GroupOutcome.total).sum ∧
    List.Perm ([outc 2, outc 3] : List GroupOutcome) [outc 3, outc 2] ∧
    (finalProgress (([outc 3, outc 2] : List GroupOutcome).map GroupOutcome.total).sum
        [outc 3, outc 2] =
      JsNum.num (sumContribs
        (([outc 3, outc 2] : List GroupOutcome).map GroupOutcome.total).sum
        [outc 3, outc 2]) ∧
    sumContribs (([outc 3, outc 2] : List GroupOutcome).map GroupOutcome.total).sum
        [outc 3, outc 2] ≤ 100 ∧
    100 < sumContribs (([outc 3, outc 2] : List GroupOutcome).map GroupOutcome.total).sum
        [outc 3, outc 2] + ([outc 3, outc 2] : List GroupOutcome).length ∧
    finalProgress (([outc 3, outc 2] : List GroupOutcome).map GroupOutcome.total).sum
        [outc 2, outc 3] =
      finalProgress (([outc 3, outc 2] : List GroupOutcome).map GroupOutcome.total).sum
        [outc 3, outc 2]) :=
  ⟨by decide, List.Perm.swap (outc 3) (outc 2) [],
    mergeProgress_final [outc 3, outc 2] [outc 2, outc 3] (by decide)
      (List.Perm.swap (outc 3) (outc 2) [])⟩

/-- Claim C2 fails as stated: two groups with totals 1 and 2 (grand total
3, equal to the sum of the group totals) end at cumulative progress
`33 + 66 = 99`, not 100. -/
theorem mergeProgress_final_counterexample :
    (([outc 1, outc 2] : List GroupOutcome).map GroupOutcome.total).sum = 3 ∧
    finalProgress 3 [outc 1, outc 2] = JsNum.num 99 ∧
    finalProgress 3 [outc 1, outc 2] ≠ JsNum.num 100 := by
  decide

/-- Claim C3, corrected: permuting the outcome sequence leaves the
aggregate's `total` unchanged and permutes — rather than preserves — the
`updated`, `removed` and `errors` sequences. The aggregates agree as
multisets of records, identifiers and messages, but are not identical lists
(see `summarize_perm_counterexample`). -/
theorem summarize_perm_invariant (l l' : List GroupOutcome) (h : List.Perm l' l) :
    (summarizeMergeResults l').total = (summarizeMergeResults l).total ∧
    List.Perm (summarizeMergeResults l').updated (summarizeMergeResults l).updated ∧
    List.Perm (summarizeMergeResults l').removed (summarizeMergeResults l).removed ∧
    List.Perm (summarizeMergeResults l').errors (summarizeMergeResults l).errors := by
  simp only [summarizeMergeResults_eq]
  exact ⟨(h.map _).sum_eq, h.filterMap _, (h.map _).flatten, (h.map _).flatten⟩

/-- Witness for `summarize_perm_invariant`: the two-outcome swap. -/
theorem summarize_perm_invariant_witness :
    List.Perm [oB, oA] [oA, oB] ∧
    ((summarizeMergeResults [oB, oA]).total = (summarizeMergeResults [oA, oB]).total ∧
    List.Perm (summarizeMergeResults [oB, oA]).updated (summarizeMergeResults [oA, oB]).updated ∧
    List.Perm (summarizeMergeResults [oB, oA]).removed (summarizeMergeResults [oA, oB]).removed ∧
    List.Perm (summarizeMergeResults [oB, oA]).errors (summarizeMergeResults [oA, oB]).errors) :=
  ⟨List.Perm.swap oA oB [],
    summarize_perm_invariant [oA, oB] [oB, oA] (List.Perm.swap oA oB [])⟩

/-- Claim C3 fails as stated: swapping two outcomes with distinct updated
records produces a different `AggregateResult` (the `updated` sequence is
reversed). -/
theorem summarize_perm_counterexample :
    summarizeMergeResults [oA, oB] ≠ summarizeMergeResults [oB, oA] := by
  decide

/-- Claim C4, corrected: with a `totalUnits` of zero the aggregator does
not treat progress as 100% — every progress value it emits is `Infinity`
or `NaN` (division by zero), never the number 100; and when no group
resolves (the only way `merge` produces a zero total) nothing is emitted
at all. -/
theorem zero_totalUnits_progress (results : List GroupOutcome) (p : JsNum)
    (hp : p ∈ progressEmissionsFrom 0 (JsNum.num 0) results) :
    p = JsNum.inf ∨ p = JsNum.nan :=
  progressEmissions_zero_nonfinite results (JsNum.num 0) p hp

/-- Witness for `zero_totalUnits_progress`: a single resolved group with
total 1 under a zero grand total emits `Infinity`. -/
theorem zero_totalUnits_progress_witness :
    JsNum.inf ∈ progressEmissionsFrom 0 (JsNum.num 0) [outc 1] ∧
    (JsNum.inf = JsNum.inf ∨ JsNum.inf = JsNum.nan) :=
  ⟨by decide, zero_totalUnits_progress [outc 1] JsNum.inf (by decide)⟩

/-- Claim C4 fails as stated: with `totalUnits = 0` and one resolved group
of total 1, the single emitted progress value is `Infinity`, not 100. -/
theorem zero_totalUnits_counterexample :
    progressEmissionsFrom 0 (JsNum.num 0) [outc 1] = [JsNum.inf] ∧
    JsNum.inf ≠ JsNum.num 100 := by
  decide

/-- Claim C5, code bug: evaluating the announcer at the failing input — a
merge of one group `{ update: C1, remove: [] }` whose update and removal
both succeed — exactly one `contactUpdated` notification is emitted per
resolved group, but its payload is the factory's `update` function
(line 121 writes `data: { contact: update }`, and in that scope `update`
is the contact-edit helper of the factory), not the canonical record `C1`
of the group as the claim states. -/
theorem contactUpdated_payload_is_function_ref :
    (merge (SyncBehavior.resolves JsValue.undef)
        [(UpdateBehavior.resolves, RemoveBehavior.resolves [] [])]
        [{ total := 1, updated := some rC1, removed := some [], errors := some [] }]
        [("g0", { update := rC1, remove := [] })]).1.contactUpdated =
      [ContactPayload.functionRef] ∧
    ContactPayload.functionRef ≠ ContactPayload.record rC1 := by
  decide

/-- Claim C6: for every merge group and every behaviour of the store's
update and remove calls, `updateAndRemove` never rejects: it resolves with
a `GroupOutcome`, and when either store call rejected, the outcome's
`errors` captures the thrown error's message (with `updated` dropped
exactly for an update conflict, and kept as the attempted record for any
other update failure or for a removal failure). -/
theorem updateAndRemove_never_rejects (ub : UpdateBehavior) (rb : RemoveBehavior)
    (args : MergeArgs) (e : JsError) (m : String) :
    (updateAndRemove ub rb args).settled = Except.ok (reconOutcome ub rb args) ∧
    (updateAndRemove (UpdateBehavior.rejects e) rb args).settled =
      Except.ok { total := 1 + args.remove.length
                  updated := if e.isContactUpdateError then none else some args.update
                  removed := none
                  errors := some [e.message] } ∧
    (updateAndRemove UpdateBehavior.resolves
        (RemoveBehavior.rejects (JsError.otherError m)) args).settled =
      Except.ok { total := 1 + args.remove.length
                  updated := some args.update
                  removed := none
                  errors := some [m] } :=
  ⟨settled_eq_ok ub rb args, rfl, rfl⟩

/-- Claim C7: when the canonical update rejects with a `ContactUpdateError`,
the group resolves with `updatedRecord` absent, no removed identifiers
(`removed` is left out of the outcome, which the summarizer folds exactly
like an empty sequence — second conjunct), the stringified failure as the
only error message, and `Contact.remove` is never invoked. -/
theorem conflict_skips_remove (msg : String) (rb : RemoveBehavior) (args : MergeArgs) :
    updateAndRemove (UpdateBehavior.rejects (JsError.contactUpdateError msg)) rb args =
      { settled := Except.ok { total := 1 + args.remove.length
                               updated := none
                               removed := none
                               errors := some [msg] }
        removeInvoked := false } ∧
    (summarizeMergeResults
        [reconOutcome (UpdateBehavior.rejects (JsError.contactUpdateError msg)) rb args]).removed =
      [] := by
  refine ⟨rfl, ?_⟩
  have h : reconOutcome (UpdateBehavior.rejects (JsError.contactUpdateError msg)) rb args =
      { total := 1 + args.remove.length, updated := none, removed := none,
        errors := some [msg] } := rfl
  rw [h, summarizeMergeResults_eq]
  simp

/-- Claim C8: when the canonical update succeeds and the remove call reports
a partial result, the outcome keeps the canonical record as `updated` (the
update is not rolled back), takes `removed` verbatim from the store's
report, and maps each per-identifier error object to its `Error` message. -/
theorem update_success_partial_remove (args : MergeArgs) (removed : List ContactID)
    (errs : List RemoveErr) :
    (updateAndRemove UpdateBehavior.resolves (RemoveBehavior.resolves removed errs)
        args).settled =
      Except.ok { total := 1 + args.remove.length
                  updated := some args.update
                  removed := some removed
                  errors := some (errs.map RemoveErr.Error) } :=
  rfl

/-- Claim C9: whatever the store behaviours, the resolved outcome's `total`
is `1 + remove.length`; in particular a group with no duplicates has
`total = 1` (second conjunct). -/
theorem groupTotal_eq (ub : UpdateBehavior) (rb : RemoveBehavior) (args : MergeArgs)
    (c : ContactRecord) :
    (reconOutcome ub rb args).total = 1 + args.remove.length ∧
    (reconOutcome ub rb { update := c, remove := [] }).total = 1 := by
  constructor
  · cases ub <;> cases rb <;> rfl
  · cases ub <;> cases rb <;> rfl

/-- Claim C10: merging a request with zero groups does not reject on
account of the empty request: no progress or record notifications are
emitted, the `contactsUpdated` ("contacts list changed") and
`contactsMerged` ("merge finished") notifications fire, the latter carrying
the empty aggregate `{updated: [], removed: [], errors: [], total: 0}`, and
the run settles exactly as the final `eventManager.call()` settles. -/
theorem merge_empty_request (v : JsValue) (m : String) :
    merge (SyncBehavior.resolves v) [] [] [] =
      ({ loaderActivated := true, progress := [], contactUpdated := [],
         contactsUpdatedEmitted := true,
         contactsMerged := some { updated := [], removed := [], errors := [], total := 0 } },
       Settlement.resolved v) ∧
    merge (SyncBehavior.rejects m) [] [] [] =
      ({ loaderActivated := true, progress := [], contactUpdated := [],
         contactsUpdatedEmitted := true,
         contactsMerged := some { updated := [], removed := [], errors := [], total := 0 } },
       Settlement.rejected m) :=
  ⟨rfl, rfl⟩
